import Mathlib

/-
  Shallow embedding of the Entity Association service of lif-core
  (src/components/lif/mdr_services/entity_association_service.py),
  together with theorems settling the behavioural claims about it.

  Modelling conventions:
  * The database session is modelled as an explicit `DB` value holding the
    relevant tables as lists of rows; mutating operations return the new `DB`
    paired with an `Except` result, mirroring the sequential control flow of
    the Python functions (every `raise` point returns the state as it stands
    at that point).
  * `HTTPException(status_code=404, ...)` and `HTTPException(status_code=400, ...)`
    are modelled as `SvcError.http 404` / `SvcError.http 400`; the
    SQLAlchemy `MultipleResultsFound` error that `scalar_one_or_none` raises on
    two or more result rows is `SvcError.multipleResults`.
  * SQLAlchemy renders a comparison of a column with the Python value `None`
    as `IS NULL`; hence the filter `ExtendedByDataModelId == scope` with
    `scope : Option Int` is exactly `row.ExtendedByDataModelId == scope`
    (both sides `none` compare true).
  * Python truthiness tests on optional ints/strings (`if dto.ParentEntityId:`)
    are modelled by `pyTruthyInt` / `pyTruthyStr` (`None`, `0` and `""` are falsy).
-/

namespace LifCore

/-- Typed failures of the service: `http s` models `HTTPException(status_code=s)`
(404 = NotFound, 400 = Conflict); `multipleResults` models the persistence-layer
`MultipleResultsFound` error raised by `scalar_one_or_none`. -/
inductive SvcError where
  | http (status : Nat)
  | multipleResults
deriving Repr, DecidableEq

/-- Row of the `Entity` table, restricted to the columns the association
service reads: identity, owning data model, the extension flag and soft-delete. -/
structure Entity where
  Id : Int
  DataModelId : Int
  Extension : Bool
  Deleted : Bool
deriving Repr, DecidableEq

/-- The data-model type enumeration; `OrgLIF` and `PartnerLIF` are the
extension types tested in `get_entity_associations_by_data_model_id`. -/
inductive DataModelType where
  | Base
  | OrgLIF
  | PartnerLIF
deriving Repr, DecidableEq

/-- Row of the `DataModel` table, restricted to the columns the service reads.
`Type_` models the column named `Type` (a reserved word in Lean). -/
structure DataModel where
  Id : Int
  Type_ : DataModelType
  Deleted : Bool
deriving Repr, DecidableEq

/-- Row of the `ExtInclusionsFromBaseDM` table (an extension model's inclusion set). -/
structure ExtInclusionsFromBaseDM where
  ExtDataModelId : Int
  ElementType : String
  IncludedElementId : Int
  Deleted : Bool
deriving Repr, DecidableEq

/-- Row of the `EntityAssociation` table. Dates are modelled as opaque integers. -/
structure EntityAssociation where
  Id : Int
  ParentEntityId : Int
  ChildEntityId : Int
  Relationship : String
  Placement : Option String
  Notes : Option String
  CreationDate : Option Int
  ActivationDate : Option Int
  DeprecationDate : Option Int
  Contributor : Option String
  ContributorOrganization : Option String
  Extension : Bool
  ExtendedByDataModelId : Option Int
  Deleted : Bool
deriving Repr, DecidableEq

/-- The database state visible to the service: the four tables plus the
next primary key the session will assign on insert. -/
structure DB where
  entities : List Entity
  dataModels : List DataModel
  inclusions : List ExtInclusionsFromBaseDM
  associations : List EntityAssociation
  nextId : Int
deriving Repr, DecidableEq

/-- Python truthiness of an optional integer: `None` and `0` are falsy. -/
def pyTruthyInt (o : Option Int) : Bool :=
  match o with
  | none => false
  | some n => n != 0

/-- Python truthiness of an optional string: `None` and `""` are falsy. -/
def pyTruthyStr (o : Option String) : Bool :=
  match o with
  | none => false
  | some s => s != ""

/-- Result extraction of SQLAlchemy `scalar_one_or_none`: `none` on zero rows,
the row on exactly one, and a `MultipleResultsFound` error on two or more. -/
def scalar_one_or_none {α : Type} (rows : List α) : Except SvcError (Option α) :=
  match rows with
  | [] => .ok none
  | [a] => .ok (some a)
  | _ => .error .multipleResults

/-- Modelled from the spec: the Entity Directory collaborator
`GetEntityById(id) -> Entity | fails NotFound` (the source of
`lif.mdr_services.entity_service.get_entity_by_id` is not among the given
files). Per the spec an entity resolves only when it exists and is not deleted. -/
def get_entity_by_id (db : DB) (id : Int) : Except SvcError Entity :=
  match db.entities.find? (fun e => e.Id == id && !e.Deleted) with
  | some e => .ok e
  | none => .error (.http 404)

/-- Modelled from the spec: the validation helper
`lif.mdr_services.helper_service.check_entity_by_id` (source not among the
given files) — resolves an entity by id or fails NotFound. -/
def check_entity_by_id (db : DB) (id : Int) : Except SvcError Entity :=
  match db.entities.find? (fun e => e.Id == id && !e.Deleted) with
  | some e => .ok e
  | none => .error (.http 404)

/-- Modelled from the spec: the validation helper
`lif.mdr_services.helper_service.check_datamodel_by_id` (source not among the
given files) — resolves a data model by id or fails NotFound. -/
def check_datamodel_by_id (db : DB) (id : Int) : Except SvcError DataModel :=
  match db.dataModels.find? (fun m => m.Id == id && !m.Deleted) with
  | some m => .ok m
  | none => .error (.http 404)

/-- The scope filter used by the duplicate checks:
`or_(ExtendedByDataModelId == None, ExtendedByDataModelId == scope)`.
A row matches when its scope is null or equals the requested scope (a request
scope of `none` renders both disjuncts as `IS NULL`). -/
def scopeOverlaps (rowScope reqScope : Option Int) : Bool :=
  rowScope == none || rowScope == reqScope

/-- The rows the `check_existing_association` query returns: non-deleted
associations on the ordered pair with an overlapping scope. -/
def matchingAssociations (db : DB) (parent_entity_id child_entity_id : Int)
    (extended_by_data_model_id : Option Int) : List EntityAssociation :=
  db.associations.filter (fun a =>
    a.ParentEntityId == parent_entity_id &&
    a.ChildEntityId == child_entity_id &&
    !a.Deleted &&
    scopeOverlaps a.ExtendedByDataModelId extended_by_data_model_id)

/-- `check_existing_association`: runs the duplicate query and extracts with
`scalar_one_or_none`, returning whether a matching row exists. -/
def check_existing_association (db : DB) (parent_entity_id child_entity_id : Int)
    (extended_by_data_model_id : Option Int) : Except SvcError Bool :=
  match scalar_one_or_none
      (matchingAssociations db parent_entity_id child_entity_id extended_by_data_model_id) with
  | .error e => .error e
  | .ok r => .ok r.isSome

/-- `CreateEntityAssociationDTO`: the create payload. `Extension` is
caller-supplied but overwritten by the service. -/
structure CreateEntityAssociationDTO where
  ParentEntityId : Int
  ChildEntityId : Int
  Relationship : String
  Placement : Option String
  Notes : Option String
  CreationDate : Option Int
  ActivationDate : Option Int
  DeprecationDate : Option Int
  Contributor : Option String
  ContributorOrganization : Option String
  Extension : Bool
  ExtendedByDataModelId : Option Int
deriving Repr, DecidableEq

/-- `create_entity_association`: resolves both endpoint entities, recomputes
`Extension` as the disjunction of the endpoints' flags, runs the duplicate
check (Conflict when a row exists), then inserts the new row. -/
def create_entity_association (db : DB) (data : CreateEntityAssociationDTO) :
    DB × Except SvcError EntityAssociation :=
  match get_entity_by_id db data.ParentEntityId with
  | .error e => (db, .error e)
  | .ok parent_entity =>
    match get_entity_by_id db data.ChildEntityId with
    | .error e => (db, .error e)
    | .ok child_entity =>
      let dataExtension := parent_entity.Extension || child_entity.Extension
      match check_existing_association db data.ParentEntityId data.ChildEntityId
          data.ExtendedByDataModelId with
      | .error e => (db, .error e)
      | .ok true => (db, .error (.http 400))
      | .ok false =>
        let entity_association : EntityAssociation :=
          { Id := db.nextId
            ParentEntityId := data.ParentEntityId
            ChildEntityId := data.ChildEntityId
            Relationship := data.Relationship
            Placement := data.Placement
            Notes := data.Notes
            CreationDate := data.CreationDate
            ActivationDate := data.ActivationDate
            DeprecationDate := data.DeprecationDate
            Contributor := data.Contributor
            ContributorOrganization := data.ContributorOrganization
            Extension := dataExtension
            ExtendedByDataModelId := data.ExtendedByDataModelId
            Deleted := false }
        ({ db with
            associations := db.associations ++ [entity_association]
            nextId := db.nextId + 1 },
         .ok entity_association)

/-- `session.get(EntityAssociation, id)`: primary-key lookup, deleted rows included. -/
def session_get_association (db : DB) (association_id : Int) : Option EntityAssociation :=
  db.associations.find? (fun a => a.Id == association_id)

/-- `get_entity_association_by_id`: NotFound when the row is absent or soft-deleted. -/
def get_entity_association_by_id (db : DB) (association_id : Int) :
    Except SvcError EntityAssociation :=
  match session_get_association db association_id with
  | none => .error (.http 404)
  | some association =>
    if association.Deleted then .error (.http 404) else .ok association

/-- `get_entity_association_by_parent_child_relationship`: first non-deleted row
matching parent, child and relationship with an overlapping scope (`.first()`,
empty result is not an error). -/
def get_entity_association_by_parent_child_relationship (db : DB)
    (parent_entity_id child_entity_id : Int) (relationship : String)
    (extended_by_data_model_id : Option Int) : Option EntityAssociation :=
  (db.associations.filter (fun a =>
    a.ParentEntityId == parent_entity_id &&
    a.ChildEntityId == child_entity_id &&
    a.Relationship == relationship &&
    scopeOverlaps a.ExtendedByDataModelId extended_by_data_model_id &&
    !a.Deleted)).head?

/-- Modelled from the spec: `UpdateEntityAssociationDTO`, the partial (PATCH)
payload (its source under `lif.mdr_dto` is not among the given files). A field
that is `none` is absent from the patch (pydantic `exclude_unset`); a field that
is `some v` is explicitly present with value `v`. -/
structure UpdateEntityAssociationDTO where
  ParentEntityId : Option Int
  ChildEntityId : Option Int
  Relationship : Option String
  Placement : Option String
  Notes : Option String
  CreationDate : Option Int
  ActivationDate : Option Int
  DeprecationDate : Option Int
  Contributor : Option String
  ContributorOrganization : Option String
  Extension : Option Bool
  ExtendedByDataModelId : Option Int
deriving Repr, DecidableEq

/-- An update patch with every field absent. -/
def emptyUpdateDTO : UpdateEntityAssociationDTO :=
  { ParentEntityId := none
    ChildEntityId := none
    Relationship := none
    Placement := none
    Notes := none
    CreationDate := none
    ActivationDate := none
    DeprecationDate := none
    Contributor := none
    ContributorOrganization := none
    Extension := none
    ExtendedByDataModelId := none }

/-- `updated_parent_entity_id`: the patch value when truthy, the stored value otherwise. -/
def updEffParent (ea : EntityAssociation) (dto : UpdateEntityAssociationDTO) : Int :=
  if pyTruthyInt dto.ParentEntityId then dto.ParentEntityId.getD 0 else ea.ParentEntityId

/-- `updated_child_entity_id`: the patch value when truthy, the stored value otherwise. -/
def updEffChild (ea : EntityAssociation) (dto : UpdateEntityAssociationDTO) : Int :=
  if pyTruthyInt dto.ChildEntityId then dto.ChildEntityId.getD 0 else ea.ChildEntityId

/-- `updated_relationship`: the patch value when truthy, the stored value otherwise. -/
def updEffRelationship (ea : EntityAssociation) (dto : UpdateEntityAssociationDTO) : String :=
  if pyTruthyStr dto.Relationship then dto.Relationship.getD "" else ea.Relationship

/-- `updated_extended_by_data_model_id`: the patch value when truthy, the stored value otherwise. -/
def updEffScope (ea : EntityAssociation) (dto : UpdateEntityAssociationDTO) : Option Int :=
  if pyTruthyInt dto.ExtendedByDataModelId then dto.ExtendedByDataModelId
  else ea.ExtendedByDataModelId

/-- The `setattr` loop over `dto.dict(exclude_unset=True)`: every field present
in the patch overwrites the stored field; absent fields are untouched. -/
def applyPatch (ea : EntityAssociation) (dto : UpdateEntityAssociationDTO) :
    EntityAssociation :=
  { ea with
    ParentEntityId := dto.ParentEntityId.getD ea.ParentEntityId
    ChildEntityId := dto.ChildEntityId.getD ea.ChildEntityId
    Relationship := dto.Relationship.getD ea.Relationship
    Placement := match dto.Placement with | some v => some v | none => ea.Placement
    Notes := match dto.Notes with | some v => some v | none => ea.Notes
    CreationDate := match dto.CreationDate with | some v => some v | none => ea.CreationDate
    ActivationDate := match dto.ActivationDate with | some v => some v | none => ea.ActivationDate
    DeprecationDate :=
      match dto.DeprecationDate with | some v => some v | none => ea.DeprecationDate
    Contributor := match dto.Contributor with | some v => some v | none => ea.Contributor
    ContributorOrganization :=
      match dto.ContributorOrganization with
      | some v => some v
      | none => ea.ContributorOrganization
    Extension := dto.Extension.getD ea.Extension
    ExtendedByDataModelId :=
      match dto.ExtendedByDataModelId with
      | some v => some v
      | none => ea.ExtendedByDataModelId }

/-- Writing the patched row back: `session.add` + `commit` replaces the stored
row with the mutated object. -/
def commitUpdate (db : DB) (association_id : Int) (updated : EntityAssociation) :
    DB × Except SvcError EntityAssociation :=
  ({ db with
      associations := db.associations.map
        (fun a => if a.Id == association_id then updated else a) },
   .ok updated)

/-- The entity validation of `update_entity_association`:
`if dto.X: await check_entity_by_id(session, dto.X)`. -/
def checkPatchEntity (db : DB) (o : Option Int) : Except SvcError Unit :=
  if pyTruthyInt o then
    match check_entity_by_id db (o.getD 0) with
    | .error e => .error e
    | .ok _ => .ok ()
  else .ok ()

/-- `update_entity_association`: resolves the row (NotFound when absent or
deleted), validates patched endpoints, and — only when the patch contains a
truthy `ParentEntityId` or `ChildEntityId` — looks up an association with the
effective (parent, child, relationship, scope) tuple and fails with Conflict
when a different row is found; finally applies the patch. -/
def update_entity_association (db : DB) (association_id : Int)
    (dto : UpdateEntityAssociationDTO) : DB × Except SvcError EntityAssociation :=
  match get_entity_association_by_id db association_id with
  | .error e => (db, .error e)
  | .ok entity_association =>
    match checkPatchEntity db dto.ParentEntityId with
    | .error e => (db, .error e)
    | .ok _ =>
      match checkPatchEntity db dto.ChildEntityId with
      | .error e => (db, .error e)
      | .ok _ =>
        if pyTruthyInt dto.ParentEntityId || pyTruthyInt dto.ChildEntityId then
          match get_entity_association_by_parent_child_relationship db
              (updEffParent entity_association dto)
              (updEffChild entity_association dto)
              (updEffRelationship entity_association dto)
              (updEffScope entity_association dto) with
          | some existing_association =>
            if existing_association.Id != association_id then
              (db, .error (.http 400))
            else
              commitUpdate db association_id (applyPatch entity_association dto)
          | none => commitUpdate db association_id (applyPatch entity_association dto)
        else
          commitUpdate db association_id (applyPatch entity_association dto)

/-- `delete_entity_association` (hard delete): resolves the row, then removes it. -/
def delete_entity_association (db : DB) (association_id : Int) :
    DB × Except SvcError Unit :=
  match get_entity_association_by_id db association_id with
  | .error e => (db, .error e)
  | .ok _ =>
    ({ db with
        associations := db.associations.filter (fun a => !(a.Id == association_id)) },
     .ok ())

/-- Setting `Deleted = true` on the row with the given id (the state change a
committed soft delete performs on the association table). -/
def markDeleted (l : List EntityAssociation) (association_id : Int) :
    List EntityAssociation :=
  l.map (fun a => if a.Id == association_id then { a with Deleted := true } else a)

/-- `soft_delete_entity_association`: resolves the row, then sets `Deleted = true`. -/
def soft_delete_entity_association (db : DB) (association_id : Int) :
    DB × Except SvcError Unit :=
  match get_entity_association_by_id db association_id with
  | .error e => (db, .error e)
  | .ok _ =>
    ({ db with associations := markDeleted db.associations association_id }, .ok ())

/-- The non-deleted Entity inclusion set of an extension data model
(`ExtInclusionsFromBaseDM` rows with `ElementType = "Entity"`). -/
def includedEntityIds (db : DB) (data_model_id : Int) : List Int :=
  (db.inclusions.filter (fun i =>
    i.ExtDataModelId == data_model_id && i.ElementType == "Entity" && !i.Deleted)).map
    (fun i => i.IncludedElementId)

/-- `get_entity_associations_by_data_model_id`: for an extension-typed model,
the non-deleted associations with both endpoints in the inclusion set and scope
equal to the model's id or null; for a base model, the union of the parent-side
and child-side joins (base scope only), deduplicated by SQL UNION semantics. -/
def get_entity_associations_by_data_model_id (db : DB) (data_model_id : Int) :
    Except SvcError (List EntityAssociation) :=
  match check_datamodel_by_id db data_model_id with
  | .error e => .error e
  | .ok data_model =>
    if data_model.Type_ == DataModelType.OrgLIF ||
        data_model.Type_ == DataModelType.PartnerLIF then
      let included := includedEntityIds db data_model_id
      .ok (db.associations.filter (fun a =>
        included.contains a.ParentEntityId &&
        included.contains a.ChildEntityId &&
        !a.Deleted &&
        (a.ExtendedByDataModelId == some data_model_id ||
          a.ExtendedByDataModelId == none)))
    else
      let parentSide := db.associations.filter (fun a =>
        db.entities.any (fun e => e.Id == a.ParentEntityId &&
          e.DataModelId == data_model_id) &&
        !a.Deleted && a.ExtendedByDataModelId == none)
      let childSide := db.associations.filter (fun a =>
        db.entities.any (fun e => e.Id == a.ChildEntityId &&
          e.DataModelId == data_model_id) &&
        !a.Deleted && a.ExtendedByDataModelId == none)
      .ok (parentSide ++ childSide.filter (fun a => !(parentSide.contains a)))

/-- `get_entity_associations_by_parent_entity_id`: resolves the parent entity,
then lists its non-deleted associations — base scope together with the given
extension scope when one is supplied (truthy), base scope only otherwise. -/
def get_entity_associations_by_parent_entity_id (db : DB) (parent_entity_id : Int)
    (including_extended_by_data_model_id : Option Int) :
    Except SvcError (List EntityAssociation) :=
  match check_entity_by_id db parent_entity_id with
  | .error e => .error e
  | .ok _ =>
    if pyTruthyInt including_extended_by_data_model_id then
      .ok (db.associations.filter (fun a =>
        a.ParentEntityId == parent_entity_id &&
        !a.Deleted &&
        (a.ExtendedByDataModelId == including_extended_by_data_model_id ||
          a.ExtendedByDataModelId == none)))
    else
      .ok (db.associations.filter (fun a =>
        a.ParentEntityId == parent_entity_id &&
        !a.Deleted &&
        a.ExtendedByDataModelId == none))

-- Concrete fixtures used by counterexamples and witnesses.

/-- A base (non-extension) entity with id 1. -/
def entityA : Entity := { Id := 1, DataModelId := 100, Extension := false, Deleted := false }

/-- An extension entity with id 2. -/
def entityB : Entity := { Id := 2, DataModelId := 100, Extension := true, Deleted := false }

/-- A create payload for the pair (p, c) with the given relationship and scope,
all descriptive fields empty and a caller-supplied `Extension := false`. -/
def mkCreateDTO (p c : Int) (rel : String) (scope : Option Int) :
    CreateEntityAssociationDTO :=
  { ParentEntityId := p, ChildEntityId := c, Relationship := rel, Placement := none,
    Notes := none, CreationDate := none, ActivationDate := none, DeprecationDate := none,
    Contributor := none, ContributorOrganization := none, Extension := false,
    ExtendedByDataModelId := scope }

/-- A database holding entities 1 and 2 and no associations. -/
def pairDB : DB :=
  { entities := [entityA, entityB], dataModels := [], inclusions := [],
    associations := [], nextId := 10 }

/-- A stored base-scope association (1, 2, "rel", null) with id 1. -/
def assoc1 : EntityAssociation :=
  { Id := 1, ParentEntityId := 1, ChildEntityId := 2, Relationship := "rel",
    Placement := none, Notes := none, CreationDate := none, ActivationDate := none,
    DeprecationDate := none, Contributor := none, ContributorOrganization := none,
    Extension := true, ExtendedByDataModelId := none, Deleted := false }

/-- A stored base-scope association (1, 2, "rel2", null) with id 2. -/
def assoc2 : EntityAssociation :=
  { assoc1 with Id := 2, Relationship := "rel2" }

/-- A database holding entities 1 and 2 and the two associations above. -/
def dbTwoAssoc : DB :=
  { entities := [entityA, entityB], dataModels := [], inclusions := [],
    associations := [assoc1, assoc2], nextId := 10 }

/-- A soft-deleted association with id 3. -/
def assocDel : EntityAssociation :=
  { assoc1 with Id := 3, Deleted := true }

/-- A database whose only association is soft-deleted. -/
def dbDeleted : DB :=
  { entities := [entityA, entityB], dataModels := [], inclusions := [],
    associations := [assocDel], nextId := 10 }

/-- An association (1, 2) scoped to extension model 5, id 4. -/
def assocS5 : EntityAssociation :=
  { assoc1 with Id := 4, ExtendedByDataModelId := some 5 }

/-- A database holding both a scope-5 and a base-scope association on (1, 2),
reachable by creating the scope-5 association first and the base one second. -/
def dbDup : DB :=
  { entities := [entityA, entityB], dataModels := [], inclusions := [],
    associations := [assocS5, assoc1], nextId := 10 }

/-- An extension-typed (OrgLIF) data model with id 99. -/
def dm99 : DataModel := { Id := 99, Type_ := DataModelType.OrgLIF, Deleted := false }

/-- Inclusion of entity 1 in model 99. -/
def incl1 : ExtInclusionsFromBaseDM :=
  { ExtDataModelId := 99, ElementType := "Entity", IncludedElementId := 1, Deleted := false }

/-- Inclusion of entity 2 in model 99. -/
def incl2 : ExtInclusionsFromBaseDM :=
  { ExtDataModelId := 99, ElementType := "Entity", IncludedElementId := 2, Deleted := false }

/-- An association (2, 3) whose child endpoint 3 is outside model 99's inclusion set
in `dbModel99` below. -/
def assocOutside : EntityAssociation :=
  { assoc1 with Id := 6, ParentEntityId := 2, ChildEntityId := 3 }

/-- A database with extension model 99 including entities 1 and 2, one
association between included entities and one with an endpoint outside. -/
def dbModel99 : DB :=
  { entities := [entityA, entityB], dataModels := [dm99], inclusions := [incl1, incl2],
    associations := [assoc1, assocOutside], nextId := 10 }

/-- The row `create_entity_association pairDB (mkCreateDTO 1 2 "contains" none)` inserts. -/
def rowW1 : EntityAssociation :=
  { Id := 10, ParentEntityId := 1, ChildEntityId := 2, Relationship := "contains",
    Placement := none, Notes := none, CreationDate := none, ActivationDate := none,
    DeprecationDate := none, Contributor := none, ContributorOrganization := none,
    Extension := true, ExtendedByDataModelId := none, Deleted := false }

/-- The state after that base-scope create on `pairDB`. -/
def dbW1 : DB :=
  { pairDB with associations := [rowW1], nextId := 11 }

/-- The row `create_entity_association pairDB (mkCreateDTO 1 2 "contains" (some 5))` inserts. -/
def rowW4 : EntityAssociation :=
  { rowW1 with ExtendedByDataModelId := some 5 }

/-- The state after that scope-5 create on `pairDB`. -/
def dbW4 : DB :=
  { pairDB with associations := [rowW4], nextId := 11 }

-- Helper lemmas shared by the claim theorems.

/-- The duplicate check reports no existing association exactly when the
matching query is empty. -/
theorem check_existing_ok_false_iff (db : DB) (p c : Int) (s : Option Int) :
    check_existing_association db p c s = .ok false ↔
      matchingAssociations db p c s = [] := by
  cases h : matchingAssociations db p c s with
  | nil => simp [check_existing_association, scalar_one_or_none, h]
  | cons a t =>
    cases t with
    | nil => simp [check_existing_association, scalar_one_or_none, h]
    | cons b u => simp [check_existing_association, scalar_one_or_none, h]

/-- The duplicate check reports an existing association exactly when the
matching query returns a single row. -/
theorem check_existing_ok_true_iff (db : DB) (p c : Int) (s : Option Int) :
    check_existing_association db p c s = .ok true ↔
      (matchingAssociations db p c s).length = 1 := by
  cases h : matchingAssociations db p c s with
  | nil => simp [check_existing_association, scalar_one_or_none, h]
  | cons a t =>
    cases t with
    | nil => simp [check_existing_association, scalar_one_or_none, h]
    | cons b u => simp [check_existing_association, scalar_one_or_none, h]

/-- Inversion of a successful create: both endpoints resolved, the duplicate
query was empty, and the returned row and new state are the insert literal. -/
theorem create_ok_elim {db db1 : DB} {data : CreateEntityAssociationDTO}
    {row : EntityAssociation}
    (h : create_entity_association db data = (db1, .ok row)) :
    ∃ pe ce,
      get_entity_by_id db data.ParentEntityId = .ok pe ∧
      get_entity_by_id db data.ChildEntityId = .ok ce ∧
      matchingAssociations db data.ParentEntityId data.ChildEntityId
        data.ExtendedByDataModelId = [] ∧
      row =
        { Id := db.nextId
          ParentEntityId := data.ParentEntityId
          ChildEntityId := data.ChildEntityId
          Relationship := data.Relationship
          Placement := data.Placement
          Notes := data.Notes
          CreationDate := data.CreationDate
          ActivationDate := data.ActivationDate
          DeprecationDate := data.DeprecationDate
          Contributor := data.Contributor
          ContributorOrganization := data.ContributorOrganization
          Extension := pe.Extension || ce.Extension
          ExtendedByDataModelId := data.ExtendedByDataModelId
          Deleted := false } ∧
      db1 =
        { db with
            associations := db.associations ++ [row]
            nextId := db.nextId + 1 } := by
  unfold create_entity_association at h
  cases hpe : get_entity_by_id db data.ParentEntityId with
  | error e => rw [hpe] at h; simp at h
  | ok pe =>
    rw [hpe] at h
    cases hce : get_entity_by_id db data.ChildEntityId with
    | error e => rw [hce] at h; simp at h
    | ok ce =>
      rw [hce] at h
      cases hchk : check_existing_association db data.ParentEntityId
          data.ChildEntityId data.ExtendedByDataModelId with
      | error e => rw [hchk] at h; simp at h
      | ok b =>
        rw [hchk] at h
        cases b with
        | true => simp at h
        | false =>
          simp only [Prod.mk.injEq, Except.ok.injEq] at h
          obtain ⟨hdb, hrow⟩ := h
          refine ⟨pe, ce, rfl, rfl, ?_, hrow.symm, ?_⟩
          · exact (check_existing_ok_false_iff db _ _ _).mp hchk
          · rw [← hrow]
            exact hdb.symm

/-- Effect of an insert on the duplicate-check query: the new row is appended
to the matches exactly when it satisfies the filter. -/
theorem matchingAssociations_insert (db : DB) (r : EntityAssociation) (n : Int)
    (p c : Int) (s : Option Int) :
    matchingAssociations
        { db with associations := db.associations ++ [r], nextId := n } p c s =
      matchingAssociations db p c s ++
        (if (r.ParentEntityId == p && r.ChildEntityId == c && !r.Deleted &&
              scopeOverlaps r.ExtendedByDataModelId s) = true then [r] else []) := by
  unfold matchingAssociations
  simp [List.filter_append, List.filter_cons]

/--
C1 (counterexample to the claim as stated): on `pairDB`, creating the
association (1, 2) with extension scope 5 succeeds, and a second create for the
same pair with null scope also succeeds — it does not fail with Conflict, so a
base-scope create does not conflict with an existing extension-scope
association (the claimed "both directions" overlap fails).
-/
theorem C1_counterexample :
    ((create_entity_association pairDB (mkCreateDTO 1 2 "contains" (some 5))).2.isOk
        = true) ∧
    ((create_entity_association
        (create_entity_association pairDB (mkCreateDTO 1 2 "contains" (some 5))).1
        (mkCreateDTO 1 2 "other" none)).2.isOk = true) := by
  constructor
  · rfl
  · rfl

/--
C1 (amended): once `create_entity_association` succeeds for (p, c) with scope
`s`, a second create for the same ordered pair fails with Conflict (HTTP 400),
regardless of its relationship, whenever its scope `s2` equals `s`, or `s` is
null and the prior state held no association on (p, c) matching `s2`. The
overlap is asymmetric: a base-scope (null) association conflicts with any later
scope, but an extension-scope association does not conflict with a later
base-scope create.
-/
theorem C1_create_conflict_on_overlapping_scope
    (db db1 : DB) (data data2 : CreateEntityAssociationDTO) (row : EntityAssociation)
    (h : create_entity_association db data = (db1, .ok row))
    (hp : data2.ParentEntityId = data.ParentEntityId)
    (hc : data2.ChildEntityId = data.ChildEntityId)
    (hs : data2.ExtendedByDataModelId = data.ExtendedByDataModelId ∨
          (data.ExtendedByDataModelId = none ∧
            matchingAssociations db data.ParentEntityId data.ChildEntityId
              data2.ExtendedByDataModelId = [])) :
    (create_entity_association db1 data2).2 = .error (.http 400) := by
  obtain ⟨pe, ce, hpe, hce, hm, hrow, hdb1⟩ := create_ok_elim h
  subst hdb1
  have hrowp : row.ParentEntityId = data.ParentEntityId := by rw [hrow]
  have hrowc : row.ChildEntityId = data.ChildEntityId := by rw [hrow]
  have hrows : row.ExtendedByDataModelId = data.ExtendedByDataModelId := by rw [hrow]
  have hrowd : row.Deleted = false := by rw [hrow]
  have hmd : matchingAssociations db data2.ParentEntityId data2.ChildEntityId
      data2.ExtendedByDataModelId = [] := by
    rcases hs with hs | ⟨hnull, hempty⟩
    · rw [hp, hc, hs]; exact hm
    · rw [hp, hc]; exact hempty
  have hover : scopeOverlaps row.ExtendedByDataModelId data2.ExtendedByDataModelId
      = true := by
    rcases hs with hs | ⟨hnull, hempty⟩
    · rw [hrows, hs]; simp [scopeOverlaps]
    · rw [hrows, hnull]; simp [scopeOverlaps]
  have hm2 : matchingAssociations
      { db with associations := db.associations ++ [row], nextId := db.nextId + 1 }
      data2.ParentEntityId data2.ChildEntityId data2.ExtendedByDataModelId = [row] := by
    rw [matchingAssociations_insert, hmd]
    simp [hrowp, hrowc, hrowd, hover, hp, hc]
  have hchk2 : check_existing_association
      { db with associations := db.associations ++ [row], nextId := db.nextId + 1 }
      data2.ParentEntityId data2.ChildEntityId data2.ExtendedByDataModelId
      = .ok true := by
    rw [check_existing_ok_true_iff, hm2]
    rfl
  have hpe2 : get_entity_by_id
      { db with associations := db.associations ++ [row], nextId := db.nextId + 1 }
      data2.ParentEntityId = .ok pe := by
    rw [hp]; exact hpe
  have hce2 : get_entity_by_id
      { db with associations := db.associations ++ [row], nextId := db.nextId + 1 }
      data2.ChildEntityId = .ok ce := by
    rw [hc]; exact hce
  unfold create_entity_association
  simp only [hpe2, hce2, hchk2]

/-- Witness for C1: on `pairDB`, a base-scope (null) create succeeds yielding
`dbW1`, and a subsequent create for the same pair with extension scope 5 fails
with Conflict. -/
theorem C1_witness :
    (create_entity_association dbW1 (mkCreateDTO 1 2 "other" (some 5))).2
      = .error (.http 400) :=
  C1_create_conflict_on_overlapping_scope pairDB dbW1
    (mkCreateDTO 1 2 "contains" none) (mkCreateDTO 1 2 "other" (some 5)) rowW1
    rfl rfl rfl (Or.inr ⟨rfl, rfl⟩)

/--
C3: on every successful create, the persisted row's `Extension` equals the
disjunction of the resolved parent and child entities' `Extension` flags —
the caller-supplied `Extension` value of the payload is overwritten.
-/
theorem C3_extension_derived_from_endpoints
    (db db1 : DB) (data : CreateEntityAssociationDTO) (row : EntityAssociation)
    (pe ce : Entity)
    (h : create_entity_association db data = (db1, .ok row))
    (hpe : get_entity_by_id db data.ParentEntityId = .ok pe)
    (hce : get_entity_by_id db data.ChildEntityId = .ok ce) :
    row.Extension = (pe.Extension || ce.Extension) := by
  obtain ⟨pe', ce', hpe', hce', hm, hrow, hdb1⟩ := create_ok_elim h
  rw [hpe] at hpe'
  rw [hce] at hce'
  injection hpe' with hpeq
  injection hce' with hceq
  subst hpeq
  subst hceq
  rw [hrow]

/-- Witness for C3: creating (1, 2) on `pairDB` with caller-supplied
`Extension := false` yields a row whose `Extension` is the disjunction of the
endpoints' flags (entity 1 is base, entity 2 is extension, so `true`). -/
theorem C3_witness :
    rowW1.Extension = (entityA.Extension || entityB.Extension) :=
  C3_extension_derived_from_endpoints pairDB dbW1 (mkCreateDTO 1 2 "contains" none)
    rowW1 entityA entityB rfl rfl rfl

/--
C4: after a create for (p, c) with extension scope `s1` succeeds, a create for
the same pair with a different non-null scope `s2` also succeeds (given that,
as for the first call, no stored association on (p, c) matched scope `s2`
beforehand): distinct extension scopes do not conflict with each other.
-/
theorem C4_distinct_scopes_both_succeed
    (db db1 : DB) (data data2 : CreateEntityAssociationDTO) (row : EntityAssociation)
    (s1 s2 : Int)
    (h : create_entity_association db data = (db1, .ok row))
    (h1 : data.ExtendedByDataModelId = some s1)
    (h2 : data2.ExtendedByDataModelId = some s2)
    (hne : s1 ≠ s2)
    (hp : data2.ParentEntityId = data.ParentEntityId)
    (hc : data2.ChildEntityId = data.ChildEntityId)
    (hm2 : matchingAssociations db data.ParentEntityId data.ChildEntityId
      (some s2) = []) :
    (create_entity_association db1 data2).2.isOk = true := by
  obtain ⟨pe, ce, hpe, hce, hm, hrow, hdb1⟩ := create_ok_elim h
  subst hdb1
  have hrows : row.ExtendedByDataModelId = data.ExtendedByDataModelId := by rw [hrow]
  have hover : scopeOverlaps row.ExtendedByDataModelId (some s2) = false := by
    rw [hrows, h1]
    simp [scopeOverlaps, hne]
  have hmm : matchingAssociations
      { db with associations := db.associations ++ [row], nextId := db.nextId + 1 }
      data2.ParentEntityId data2.ChildEntityId data2.ExtendedByDataModelId = [] := by
    rw [matchingAssociations_insert]
    rw [hp, hc, h2]
    simp [hover, hm2]
  have hchk2 : check_existing_association
      { db with associations := db.associations ++ [row], nextId := db.nextId + 1 }
      data2.ParentEntityId data2.ChildEntityId data2.ExtendedByDataModelId
      = .ok false := (check_existing_ok_false_iff _ _ _ _).mpr hmm
  have hpe2 : get_entity_by_id
      { db with associations := db.associations ++ [row], nextId := db.nextId + 1 }
      data2.ParentEntityId = .ok pe := by
    rw [hp]; exact hpe
  have hce2 : get_entity_by_id
      { db with associations := db.associations ++ [row], nextId := db.nextId + 1 }
      data2.ChildEntityId = .ok ce := by
    rw [hc]; exact hce
  unfold create_entity_association
  simp only [hpe2, hce2, hchk2]
  rfl

/-- Witness for C4: on `pairDB`, creating (1, 2) with scope 5 yields `dbW4`, and
creating (1, 2) with scope 7 then also succeeds. -/
theorem C4_witness :
    (create_entity_association dbW4 (mkCreateDTO 1 2 "other" (some 7))).2.isOk
      = true :=
  C4_distinct_scopes_both_succeed pairDB dbW4 (mkCreateDTO 1 2 "contains" (some 5))
    (mkCreateDTO 1 2 "other" (some 7)) rowW4 5 7 rfl rfl rfl (by decide) rfl rfl rfl

/--
C2 (counterexample to the claim as stated): in `dbTwoAssoc`, associations
id 1 = (1, 2, "rel", null) and id 2 = (1, 2, "rel2", null) both exist; updating
id 2's relationship to "rel" — which makes its identity tuple collide with the
distinct association id 1, as the second conjunct records — succeeds instead of
failing with Conflict, because the duplicate check only runs when the patch
contains an endpoint id.
-/
theorem C2_counterexample :
    (update_entity_association dbTwoAssoc 2
        { emptyUpdateDTO with Relationship := some "rel" }).2
      = .ok { assoc2 with Relationship := "rel" } ∧
    get_entity_association_by_parent_child_relationship dbTwoAssoc 1 2 "rel" none
      = some assoc1 := by
  constructor
  · rfl
  · rfl

/--
C2 (amended): the update duplicate check runs only when the patch contains a
truthy `ParentEntityId` or `ChildEntityId`. In that case, if a non-deleted
association with the effective post-update (parent, child, relationship, scope)
tuple (scope null or equal) is found and its id differs from the one being
updated, the update fails with Conflict (HTTP 400). When the patch contains
neither endpoint — including relationship-only changes and non-identity
changes such as `Placement` — the duplicate check is skipped and the update
succeeds with the patch applied.
-/
theorem C2_update_duplicate_check_requires_endpoint_patch
    (db : DB) (association_id : Int) (dto : UpdateEntityAssociationDTO)
    (ea : EntityAssociation)
    (hget : get_entity_association_by_id db association_id = .ok ea) :
    ((pyTruthyInt dto.ParentEntityId || pyTruthyInt dto.ChildEntityId) = true →
      checkPatchEntity db dto.ParentEntityId = .ok () →
      checkPatchEntity db dto.ChildEntityId = .ok () →
      ∀ ex, get_entity_association_by_parent_child_relationship db
          (updEffParent ea dto) (updEffChild ea dto)
          (updEffRelationship ea dto) (updEffScope ea dto) = some ex →
        ex.Id ≠ association_id →
        (update_entity_association db association_id dto).2 = .error (.http 400)) ∧
    (pyTruthyInt dto.ParentEntityId = false →
      pyTruthyInt dto.ChildEntityId = false →
      (update_entity_association db association_id dto).2
        = .ok (applyPatch ea dto)) := by
  constructor
  · intro htruthy hcp hcc ex hex hne
    have hbne : (ex.Id != association_id) = true := by
      simp [hne]
    unfold update_entity_association
    simp only [hget, hcp, hcc, htruthy, hex, hbne, if_true]
  · intro hpf hcf
    have hcp : checkPatchEntity db dto.ParentEntityId = .ok () := by
      unfold checkPatchEntity
      rw [hpf]
      rfl
    have hcc : checkPatchEntity db dto.ChildEntityId = .ok () := by
      unfold checkPatchEntity
      rw [hcf]
      rfl
    unfold update_entity_association
    simp only [hget, hcp, hcc, hpf, hcf, Bool.or_false, if_false]
    rfl

/-- Witness for C2: in `dbTwoAssoc`, a `Placement`-only update of association 2
succeeds and applies exactly the patch. -/
theorem C2_witness :
    (update_entity_association dbTwoAssoc 2
        { emptyUpdateDTO with Placement := some "x" }).2
      = .ok (applyPatch assoc2 { emptyUpdateDTO with Placement := some "x" }) :=
  (C2_update_duplicate_check_requires_endpoint_patch dbTwoAssoc 2
    { emptyUpdateDTO with Placement := some "x" } assoc2 rfl).2 rfl rfl

/-- Marking the row with a given id deleted: the primary-key lookup afterwards
returns the marked row. -/
theorem find_mark_deleted (l : List EntityAssociation) (id : Int) (a : EntityAssociation)
    (h : l.find? (fun x => x.Id == id) = some a) :
    (markDeleted l id).find? (fun x => x.Id == id)
      = some { a with Deleted := true } := by
  induction l with
  | nil => simp [List.find?] at h
  | cons hd tl ih =>
    by_cases hhd : (hd.Id == id) = true
    · simp only [List.find?_cons, hhd] at h
      injection h with ha
      subst ha
      simp only [markDeleted, List.map_cons, hhd, if_true]
      have hmarked : (({ hd with Deleted := true } : EntityAssociation).Id == id)
          = true := hhd
      simp only [List.find?_cons, hmarked]
    · have hf : (hd.Id == id) = false := by simpa using hhd
      simp only [List.find?_cons, hf] at h
      have hrec := ih h
      simp only [markDeleted, List.map_cons, hf, Bool.false_eq_true, if_false,
        List.find?_cons]
      simp only [markDeleted] at hrec
      exact hrec

/-- Inversion of a successful soft delete: the row was found non-deleted and
the new state marks exactly the rows with that id as deleted. -/
theorem soft_delete_ok_elim {db db1 : DB} {id : Int}
    (h : soft_delete_entity_association db id = (db1, .ok ())) :
    ∃ ea, session_get_association db id = some ea ∧ ea.Deleted = false ∧
      db1 = { db with associations := markDeleted db.associations id } := by
  unfold soft_delete_entity_association get_entity_association_by_id at h
  cases hfind : session_get_association db id with
  | none => rw [hfind] at h; simp at h
  | some ea =>
    rw [hfind] at h
    by_cases hdel : ea.Deleted = true
    · simp [hdel] at h
    · simp [hdel, Prod.mk.injEq] at h
      exact ⟨ea, rfl, by simpa using hdel, h.symm⟩

/-- Every row a filter admitting only non-deleted rows selects from the marked
association list has an id different from the marked one. -/
theorem mem_filter_marked (l : List EntityAssociation) (id : Int)
    (q : EntityAssociation → Bool)
    (hq : ∀ x, q x = true → x.Deleted = false) (a : EntityAssociation)
    (ha : a ∈ (markDeleted l id).filter q) :
    a.Id ≠ id := by
  rcases List.mem_filter.mp ha with ⟨hmem, hqa⟩
  simp only [markDeleted] at hmem
  rcases List.mem_map.mp hmem with ⟨orig, _, heq⟩
  intro hid
  by_cases horig : (orig.Id == id) = true
  · rw [if_pos horig] at heq
    have hda : a.Deleted = true := by rw [← heq]
    rw [hq a hqa] at hda
    exact Bool.false_ne_true hda
  · rw [if_neg horig] at heq
    rw [← heq] at hid
    exact horig (by simpa using hid)

/--
C5: after a successful soft delete of an association id, reading it by id fails
with NotFound, the row remains physically present (the primary-key lookup still
returns it, marked deleted), and listing associations by parent entity — with
or without an extension scope — no longer includes any row with that id.
-/
theorem C5_soft_delete_excludes (db db1 : DB) (id : Int)
    (h : soft_delete_entity_association db id = (db1, .ok ())) :
    get_entity_association_by_id db1 id = .error (.http 404) ∧
    (∃ a, session_get_association db1 id = some a ∧ a.Deleted = true) ∧
    (∀ pid scope l,
      get_entity_associations_by_parent_entity_id db1 pid scope = .ok l →
      ∀ a ∈ l, a.Id ≠ id) := by
  obtain ⟨ea, hfind, hdel, hdb1⟩ := soft_delete_ok_elim h
  subst hdb1
  have hfind1 : session_get_association
      { db with associations := markDeleted db.associations id } id
      = some { ea with Deleted := true } := by
    unfold session_get_association at hfind ⊢
    exact find_mark_deleted _ _ _ hfind
  refine ⟨?_, ⟨{ ea with Deleted := true }, hfind1, rfl⟩, ?_⟩
  · unfold get_entity_association_by_id
    rw [hfind1]
    rfl
  · intro pid scope l hl a hal
    unfold get_entity_associations_by_parent_entity_id at hl
    cases hpe : check_entity_by_id
        { db with associations := markDeleted db.associations id } pid with
    | error e => rw [hpe] at hl; simp at hl
    | ok pe =>
      rw [hpe] at hl
      by_cases hsc : pyTruthyInt scope = true
      · simp only [hsc, if_true] at hl
        injection hl with hl
        subst hl
        exact mem_filter_marked db.associations id _
          (by intro x hx; simp at hx; exact hx.1.2) a hal
      · simp only [hsc, if_false] at hl
        injection hl with hl
        subst hl
        exact mem_filter_marked db.associations id _
          (by intro x hx; simp at hx; exact hx.1.2) a hal

/-- Witness for C5: soft-deleting association 1 in `dbTwoAssoc` succeeds, after
which it is gone from reads but still physically present. -/
theorem C5_witness :
    get_entity_association_by_id (soft_delete_entity_association dbTwoAssoc 1).1 1
      = .error (.http 404) :=
  (C5_soft_delete_excludes dbTwoAssoc
    (soft_delete_entity_association dbTwoAssoc 1).1 1 rfl).1

/-- Inversion of a successful update: the row was resolved and the result is
exactly the patch applied to it, written back by id. -/
theorem update_ok_elim {db db1 : DB} {association_id : Int}
    {dto : UpdateEntityAssociationDTO} {row : EntityAssociation}
    (h : update_entity_association db association_id dto = (db1, .ok row)) :
    ∃ ea, get_entity_association_by_id db association_id = .ok ea ∧
      (db1, Except.ok row) = commitUpdate db association_id (applyPatch ea dto) := by
  unfold update_entity_association at h
  cases hget : get_entity_association_by_id db association_id with
  | error e => rw [hget] at h; simp at h
  | ok ea =>
    rw [hget] at h
    dsimp only at h
    refine ⟨ea, rfl, ?_⟩
    cases hcp : checkPatchEntity db dto.ParentEntityId with
    | error e => rw [hcp] at h; simp at h
    | ok u =>
      cases u
      rw [hcp] at h
      dsimp only at h
      cases hcc : checkPatchEntity db dto.ChildEntityId with
      | error e => rw [hcc] at h; simp at h
      | ok u2 =>
        cases u2
        rw [hcc] at h
        dsimp only at h
        by_cases htr : (pyTruthyInt dto.ParentEntityId ||
            pyTruthyInt dto.ChildEntityId) = true
        · rw [htr] at h
          simp only [if_true] at h
          cases hex : get_entity_association_by_parent_child_relationship db
              (updEffParent ea dto) (updEffChild ea dto)
              (updEffRelationship ea dto) (updEffScope ea dto) with
          | some ex =>
            rw [hex] at h
            dsimp only at h
            by_cases hne : (ex.Id != association_id) = true
            · rw [hne] at h; simp at h
            · have hf : (ex.Id != association_id) = false := by simpa using hne
              rw [hf] at h
              simp only [Bool.false_eq_true, if_false] at h
              exact h.symm
          | none =>
            rw [hex] at h
            dsimp only at h
            exact h.symm
        · have hf : (pyTruthyInt dto.ParentEntityId ||
              pyTruthyInt dto.ChildEntityId) = false := by simpa using htr
          rw [hf] at h
          simp only [Bool.false_eq_true, if_false] at h
          exact h.symm

/--
C6: a successful update applies exactly the fields present in the partial
payload: the resulting row is `applyPatch` of the stored row, every field absent
from the patch keeps its prior value (the id always does), and a present field
such as `Notes` takes the patch value.
-/
theorem C6_partial_update_frame (db db1 : DB) (association_id : Int)
    (dto : UpdateEntityAssociationDTO) (ea row : EntityAssociation)
    (hget : get_entity_association_by_id db association_id = .ok ea)
    (h : update_entity_association db association_id dto = (db1, .ok row)) :
    row = applyPatch ea dto ∧
    row.Id = ea.Id ∧
    (dto.ParentEntityId = none → row.ParentEntityId = ea.ParentEntityId) ∧
    (dto.ChildEntityId = none → row.ChildEntityId = ea.ChildEntityId) ∧
    (dto.Relationship = none → row.Relationship = ea.Relationship) ∧
    (dto.Placement = none → row.Placement = ea.Placement) ∧
    (dto.Notes = none → row.Notes = ea.Notes) ∧
    (dto.CreationDate = none → row.CreationDate = ea.CreationDate) ∧
    (dto.ActivationDate = none → row.ActivationDate = ea.ActivationDate) ∧
    (dto.DeprecationDate = none → row.DeprecationDate = ea.DeprecationDate) ∧
    (dto.Contributor = none → row.Contributor = ea.Contributor) ∧
    (dto.ContributorOrganization = none →
      row.ContributorOrganization = ea.ContributorOrganization) ∧
    (dto.Extension = none → row.Extension = ea.Extension) ∧
    (dto.ExtendedByDataModelId = none →
      row.ExtendedByDataModelId = ea.ExtendedByDataModelId) ∧
    (∀ v, dto.Notes = some v → row.Notes = some v) := by
  obtain ⟨ea2, hget2, hcommit⟩ := update_ok_elim h
  rw [hget] at hget2
  injection hget2 with he
  subst he
  unfold commitUpdate at hcommit
  simp only [Prod.mk.injEq, Except.ok.injEq] at hcommit
  obtain ⟨hdb, hrow⟩ := hcommit
  subst hrow
  refine ⟨rfl, rfl, ?_, ?_, ?_, ?_, ?_, ?_, ?_, ?_, ?_, ?_, ?_, ?_, ?_⟩
  · intro h1; simp [applyPatch, h1]
  · intro h1; simp [applyPatch, h1]
  · intro h1; simp [applyPatch, h1]
  · intro h1; simp [applyPatch, h1]
  · intro h1; simp [applyPatch, h1]
  · intro h1; simp [applyPatch, h1]
  · intro h1; simp [applyPatch, h1]
  · intro h1; simp [applyPatch, h1]
  · intro h1; simp [applyPatch, h1]
  · intro h1; simp [applyPatch, h1]
  · intro h1; simp [applyPatch, h1]
  · intro h1; simp [applyPatch, h1]
  · intro v hv; simp [applyPatch, hv]

/-- Witness for C6: a `Notes`-only update of association 1 in `dbTwoAssoc`
succeeds and keeps the row's id. -/
theorem C6_witness :
    (applyPatch assoc1 { emptyUpdateDTO with Notes := some "x" }).Id = assoc1.Id :=
  (C6_partial_update_frame dbTwoAssoc
    (update_entity_association dbTwoAssoc 1
      { emptyUpdateDTO with Notes := some "x" }).1 1
    { emptyUpdateDTO with Notes := some "x" } assoc1
    (applyPatch assoc1 { emptyUpdateDTO with Notes := some "x" }) rfl rfl).2.1

/--
C9: whenever an update fails — NotFound for a missing or deleted association,
NotFound for a missing patched endpoint entity, or Conflict from the duplicate
check — the state is left completely unchanged: every failure is raised before
any field of the stored row is assigned.
-/
theorem C9_failed_update_preserves_state (db : DB) (association_id : Int)
    (dto : UpdateEntityAssociationDTO) (e : SvcError)
    (h : (update_entity_association db association_id dto).2 = .error e) :
    (update_entity_association db association_id dto).1 = db := by
  unfold update_entity_association at h ⊢
  cases hget : get_entity_association_by_id db association_id with
  | error e2 => rfl
  | ok ea =>
    rw [hget] at h
    dsimp only at h ⊢
    cases hcp : checkPatchEntity db dto.ParentEntityId with
    | error e2 => rfl
    | ok u =>
      cases u
      rw [hcp] at h
      dsimp only at h ⊢
      cases hcc : checkPatchEntity db dto.ChildEntityId with
      | error e2 => rfl
      | ok u2 =>
        cases u2
        rw [hcc] at h
        dsimp only at h ⊢
        by_cases htr : (pyTruthyInt dto.ParentEntityId ||
            pyTruthyInt dto.ChildEntityId) = true
        · rw [htr] at h ⊢
          simp only [if_true] at h ⊢
          cases hex : get_entity_association_by_parent_child_relationship db
              (updEffParent ea dto) (updEffChild ea dto)
              (updEffRelationship ea dto) (updEffScope ea dto) with
          | some ex =>
            rw [hex] at h
            dsimp only at h ⊢
            by_cases hne : (ex.Id != association_id) = true
            · rw [hne]
              rfl
            · have hf : (ex.Id != association_id) = false := by simpa using hne
              rw [hf] at h
              simp [commitUpdate] at h
          | none =>
            rw [hex] at h
            simp [commitUpdate] at h
        · have hf : (pyTruthyInt dto.ParentEntityId ||
              pyTruthyInt dto.ChildEntityId) = false := by simpa using htr
          rw [hf] at h
          simp [commitUpdate] at h

/-- Witness for C9: updating the absent association id 99 fails and leaves
`dbTwoAssoc` unchanged. -/
theorem C9_witness :
    (update_entity_association dbTwoAssoc 99 emptyUpdateDTO).1 = dbTwoAssoc :=
  C9_failed_update_preserves_state dbTwoAssoc 99 emptyUpdateDTO (.http 404) rfl

/--
C10: once an association's `Deleted` flag is true, every by-id operation on it —
get, update, hard delete and soft delete — fails with NotFound and leaves the
state unchanged; consequently soft delete is not idempotent: after a successful
soft delete, a second soft delete of the same id fails with NotFound.
-/
theorem C10_deleted_blocks_all_by_id_ops (db : DB) (id : Int) (a : EntityAssociation)
    (hfind : session_get_association db id = some a) (hdel : a.Deleted = true) :
    get_entity_association_by_id db id = .error (.http 404) ∧
    (∀ dto, update_entity_association db id dto = (db, .error (.http 404))) ∧
    delete_entity_association db id = (db, .error (.http 404)) ∧
    soft_delete_entity_association db id = (db, .error (.http 404)) ∧
    (∀ db0 db1 : DB, soft_delete_entity_association db0 id = (db1, .ok ()) →
      (soft_delete_entity_association db1 id).2 = .error (.http 404)) := by
  have h404 : get_entity_association_by_id db id = .error (.http 404) := by
    unfold get_entity_association_by_id
    rw [hfind]
    simp [hdel]
  refine ⟨h404, ?_, ?_, ?_, ?_⟩
  · intro dto
    unfold update_entity_association
    rw [h404]
  · unfold delete_entity_association
    rw [h404]
  · unfold soft_delete_entity_association
    rw [h404]
  · intro db0 db1 hok
    obtain ⟨ea, hfind0, hdel0, hdb1⟩ := soft_delete_ok_elim hok
    subst hdb1
    have hfind1 : session_get_association
        { db0 with associations := markDeleted db0.associations id } id
        = some { ea with Deleted := true } := by
      unfold session_get_association at hfind0 ⊢
      exact find_mark_deleted _ _ _ hfind0
    unfold soft_delete_entity_association get_entity_association_by_id
    rw [hfind1]
    rfl

/-- Witness for C10: in `dbDeleted`, association 3 is soft-deleted, and reading
it by id fails with NotFound. -/
theorem C10_witness :
    get_entity_association_by_id dbDeleted 3 = .error (.http 404) :=
  (C10_deleted_blocks_all_by_id_ops dbDeleted 3 assocDel rfl rfl).1

/--
C7: for an extension-typed (OrgLIF/PartnerLIF) data model, listing associations
by data model returns exactly the non-deleted associations whose parent and
child are both in the model's non-deleted Entity inclusion set and whose
`ExtendedByDataModelId` is the model's id or null; an association with an
endpoint outside the inclusion set is absent from the listing.
-/
theorem C7_list_by_extension_model
    (db : DB) (data_model_id : Int) (dm : DataModel) (l : List EntityAssociation)
    (hdm : check_datamodel_by_id db data_model_id = .ok dm)
    (hext : dm.Type_ = DataModelType.OrgLIF ∨ dm.Type_ = DataModelType.PartnerLIF)
    (h : get_entity_associations_by_data_model_id db data_model_id = .ok l)
    (a : EntityAssociation) :
    a ∈ l ↔
      (a ∈ db.associations ∧
        (includedEntityIds db data_model_id).contains a.ParentEntityId = true ∧
        (includedEntityIds db data_model_id).contains a.ChildEntityId = true ∧
        a.Deleted = false ∧
        (a.ExtendedByDataModelId = some data_model_id ∨
          a.ExtendedByDataModelId = none)) := by
  unfold get_entity_associations_by_data_model_id at h
  rw [hdm] at h
  dsimp only at h
  have hb : (dm.Type_ == DataModelType.OrgLIF ||
      dm.Type_ == DataModelType.PartnerLIF) = true := by
    rcases hext with he | he <;> simp [he]
  rw [hb] at h
  simp only [if_true] at h
  injection h with hl
  subst hl
  rw [List.mem_filter]
  simp [Bool.and_eq_true, Bool.or_eq_true, Bool.not_eq_true', and_assoc]

/-- Witness for C7: in `dbModel99` (extension model 99 including entities 1 and
2), the listing is exactly the association between included entities, whose
membership the theorem characterizes. -/
theorem C7_witness :
    assoc1 ∈ ([assoc1] : List EntityAssociation) :=
  (C7_list_by_extension_model dbModel99 99 dm99 [assoc1] rfl (Or.inl rfl)
    rfl assoc1).mpr (by exact ⟨by decide, rfl, rfl, rfl, Or.inr rfl⟩)

/--
C8: the create duplicate pre-check is not total over the typed failure
taxonomy: when two or more non-deleted rows match the (parent, child) pair with
an overlapping scope, `scalar_one_or_none` raises the persistence-layer
multiple-results error, which create propagates instead of Conflict; the check
reports an existing association (the Conflict branch) exactly when the match
count is one.
-/
theorem C8_multiple_matches_escape_conflict
    (db : DB) (data : CreateEntityAssociationDTO)
    (hlen : 2 ≤ (matchingAssociations db data.ParentEntityId data.ChildEntityId
      data.ExtendedByDataModelId).length)
    (hpe : (get_entity_by_id db data.ParentEntityId).isOk = true)
    (hce : (get_entity_by_id db data.ChildEntityId).isOk = true) :
    check_existing_association db data.ParentEntityId data.ChildEntityId
      data.ExtendedByDataModelId = .error .multipleResults ∧
    (create_entity_association db data).2 = .error .multipleResults ∧
    (∀ (db2 : DB) (p c : Int) (s : Option Int),
      check_existing_association db2 p c s = .ok true ↔
        (matchingAssociations db2 p c s).length = 1) := by
  have hchk : check_existing_association db data.ParentEntityId data.ChildEntityId
      data.ExtendedByDataModelId = .error .multipleResults := by
    cases hm : matchingAssociations db data.ParentEntityId data.ChildEntityId
        data.ExtendedByDataModelId with
    | nil => rw [hm] at hlen; simp at hlen
    | cons x t =>
      cases t with
      | nil => rw [hm] at hlen; simp at hlen
      | cons y u =>
        unfold check_existing_association scalar_one_or_none
        rw [hm]
  refine ⟨hchk, ?_, fun db2 p c s => check_existing_ok_true_iff db2 p c s⟩
  unfold create_entity_association
  cases hp : get_entity_by_id db data.ParentEntityId with
  | error e =>
    rw [hp] at hpe
    simp [Except.isOk, Except.toBool] at hpe
  | ok pe =>
    dsimp only
    cases hc : get_entity_by_id db data.ChildEntityId with
    | error e =>
      rw [hc] at hce
      simp [Except.isOk, Except.toBool] at hce
    | ok ce =>
      dsimp only
      rw [hchk]

/-- Witness for C8: in `dbDup`, both the scope-5 row and the base-scope row on
(1, 2) match a scope-5 create's pre-check, which therefore fails with the
persistence-layer multiple-results error instead of Conflict. -/
theorem C8_witness :
    (create_entity_association dbDup (mkCreateDTO 1 2 "third" (some 5))).2
      = .error .multipleResults :=
  (C8_multiple_matches_escape_conflict dbDup (mkCreateDTO 1 2 "third" (some 5))
    (by decide) rfl rfl).2.1

end LifCore
